import Mathlib

set_option maxRecDepth 100000

/-!
Verification of the `modelops-benchmarking` repository against its
specification.  Two components are embedded:

* `src/results-ui/app.py` — the `/data` Flask handler `get_benchmark_data`,
  which fetches an object from S3, classifies it as an `lm-eval` JSON
  document or a `benchmark` YAML document, and relays it (or an error).
  The external collaborators (`boto3`'s `get_object`, `json.loads`,
  `yaml.safe_load`) are modelled as oracle parameters: the handler's own
  control flow over their outcomes is embedded faithfully, branch by branch.

* `src/guidellm-pipeline/generate-benchmark-prompts.py` — the prompt-corpus
  generator.  The random source (`random.random`, `random.choice`,
  `random.randint`) is modelled as a per-iteration draw record; Python's
  `str.strip`, `str.replace`, `s * n` and `json.dumps` string escaping are
  embedded as executable functions over `List Char`.
-/

/-! ## Embedding of `src/results-ui/app.py` -/

/-- Parsed Python value as produced by `json.loads` / `yaml.safe_load`:
`None`, booleans, numbers, strings, lists and string-keyed mappings. -/
inductive PyValue where
  | pyNone : PyValue
  | pyBool (b : Bool) : PyValue
  | pyInt (n : Int) : PyValue
  | pyStr (s : String) : PyValue
  | pyList (xs : List PyValue) : PyValue
  | pyDict (entries : List (String × PyValue)) : PyValue

/-- Python `isinstance(data, dict)`. -/

def PyValue.isDict : PyValue → Bool
  | .pyDict _ => true
  | _ => false

/-- Python `k in data` for a dict (membership among the keys); `False`
for non-dicts (the handler only evaluates it after an `isinstance` check). -/
def PyValue.hasKey : PyValue → String → Bool
  | .pyDict entries, k => entries.any (fun e => e.1 == k)
  | _, _ => false

/-- Outcome of a call to `json.loads` or `yaml.safe_load` on the retrieved
text: a parsed value, a decode error (`json.JSONDecodeError` resp.
`yaml.YAMLError`, carrying `str(e)`), or any other exception raised inside
the corresponding `try` block (the handler's `except Exception` arms). -/
inductive ParseOutcome where
  | ok (v : PyValue) : ParseOutcome
  | decodeError (msg : String) : ParseOutcome
  | exn (msg : String) : ParseOutcome

/-- Outcome of `s3_client.get_object(...)` followed by
`['Body'].read().decode('utf-8')`: the decoded text, a
`botocore.exceptions.NoCredentialsError`, a `ClientError` (carrying
`e.response['Error']['Code']` and `e.response['Error']['Message']`), or any
other exception (the `except Exception` arm, carrying `str(e)`). -/
inductive S3Outcome where
  | ok (text : String) : S3Outcome
  | noCredentials : S3Outcome
  | clientError (code : String) (msg : String) : S3Outcome
  | exn (msg : String) : S3Outcome

/-- Process-level configuration read from the environment:
`S3_BUCKET_NAME` (`none` when the variable is unset), and the truthiness
of the module-level `s3_client` object (a constructed `boto3` client is
always truthy; the field exists because the code literally tests
`not s3_client`). -/
structure AppConfig where
  s3BucketName : Option String
  s3ClientTruthy : Bool

/-- Python truthiness of an optional string: `None` and `""` are falsy. -/

def truthyOptStr : Option String → Bool
  | none => false
  | some s => !(s == "")

/-- Body of a `jsonify(...)` response: either the success envelope
`{fileType, data, fileName}` or an `{error: msg}` object. -/
inductive Body where
  | envelope (fileType : String) (data : PyValue) (fileName : String) : Body
  | error (msg : String) : Body

/-- An HTTP response: status code plus JSON body.  A bare `jsonify(...)`
return carries Flask's default status 200. -/
structure HttpResponse where
  status : Nat
  body : Body

/-- Steps 5–6 of the handler (`app.py` lines 518–535): the YAML attempt and
the final unknown-structure error. -/
def yamlStep (yaml_safe_load : String → ParseOutcome)
    (file_content file_key : String) : HttpResponse :=
  match yaml_safe_load file_content with
  | .ok data =>
    if data.isDict && data.hasKey "benchmarks" then
      ⟨200, .envelope "benchmark" data file_key⟩
    else
      ⟨400, .error "Unknown file structure. Expected \x27benchmarks\x27 key (for YAML) or \x27results\x27 and \x27config\x27 keys (for JSON)."⟩
  | .decodeError msg => ⟨500, .error ("Error parsing YAML file: " ++ msg)⟩
  | .exn msg => ⟨500, .error ("Error during YAML processing: " ++ msg)⟩

/-- The `/data` handler `get_benchmark_data` (`app.py` lines 470–535).
`json_loads` and `yaml_safe_load` are the two library parsers and
`s3_get_object` is the store read (bucket, key ↦ outcome), all supplied as
oracles; `fileParam` is `request.args.get('file')`. -/
def get_benchmark_data (cfg : AppConfig)
    (json_loads : String → ParseOutcome)
    (yaml_safe_load : String → ParseOutcome)
    (s3_get_object : String → String → S3Outcome)
    (fileParam : Option String) : HttpResponse :=
  match fileParam with
  | none => ⟨400, .error "No \x27file\x27 parameter specified in URL."⟩
  | some file_key =>
    if file_key == "" then
      ⟨400, .error "No \x27file\x27 parameter specified in URL."⟩
    else if !truthyOptStr cfg.s3BucketName || !cfg.s3ClientTruthy then
      ⟨500, .error "Server is not configured for S3 access."⟩
    else
      match s3_get_object (cfg.s3BucketName.getD "") file_key with
      | .noCredentials =>
        ⟨500, .error "Server S3 credentials are invalid or missing."⟩
      | .clientError code msg =>
        if code == "NoSuchKey" then
          ⟨404, .error ("File not found in S3 bucket: " ++ file_key)⟩
        else
          ⟨500, .error ("S3 Error: " ++ msg)⟩
      | .exn msg => ⟨500, .error ("An unexpected error occurred: " ++ msg)⟩
      | .ok file_content =>
        match json_loads file_content with
        | .ok data =>
          if data.isDict && data.hasKey "results" && data.hasKey "config" then
            ⟨200, .envelope "lm-eval" data file_key⟩
          else
            yamlStep yaml_safe_load file_content file_key
        | .decodeError _ => yamlStep yaml_safe_load file_content file_key
        | .exn msg => ⟨500, .error ("Error during JSON processing: " ++ msg)⟩

/-- The retrieved text is not classified `lm-eval` at step 4: either
`json.loads` raises a `JSONDecodeError`, or it returns a value that is not
a dict carrying both `results` and `config`. -/
def NotLmEval (o : ParseOutcome) : Prop :=
  (∃ m, o = .decodeError m) ∨
  (∃ v, o = .ok v ∧ (v.isDict && v.hasKey "results" && v.hasKey "config") = false)

/-! ## Embedding of `src/guidellm-pipeline/generate-benchmark-prompts.py` -/

/-- The short prompt pool (40% weight). -/

def short_prompts : List String :=
  [ "list pods",
    "check db status",
    "hello",
    "what\x27s the weather in denver?",
    "delete user 4091",
    "show routes",
    "get logs for pod-abc-123",
    "who is online?",
    "reboot server-main-db",
    "what is 2+2?" ]

/-- The medium prompt pool (35% weight). -/
def medium_prompts : List String :=
  [ "Explain the difference between a Kubernetes Deployment and a StatefulSet.",
    "How do I configure a Tekton EventListener for a GitHub webhook?",
    "Write a Python function to parse a JSON file and return a list of all top-level keys.",
    "What are the pros and cons of using vLLM vs. TGI for inference serving?",
    "Summarize the following text: [placeholder for a 3-paragraph article]",
    "My OpenShift build is failing. What does the \x27ImagePullBackOff\x27 error mean?",
    "Translate this to German: \x27My CI/CD pipeline is broken and I need to fix it before the demo.\x27" ]

/-- The long (YAML) template (15% weight); the Python triple-quoted string
starts and ends with a newline. -/
def long_yaml_example : String :=
  "\nPlease analyze this Tekton Task YAML for any syntax errors or best-practice violations:\napiVersion: tekton.dev/v1\nkind: Task\nmetadata:\n  name: deploy-using-helm\nspec:\n  params:\n    - name: helm-chart-path\n      description: The path to the helm chart\n      type: string\n    - name: release-name\n      description: The name of the release\n      type: string\n  steps:\n    - name: helm-deploy\n      image: \"alpine/helm:3.10.0\"\n      script: |\n        #!/usr/bin/env sh\n        echo \"Deploying $(params.release-name) from $(params.helm-chart-path)...\"\n"

/-- The huge (stack-trace) template (10% weight). -/

def huge_stack_trace_example : String :=
  "\nMy application is crashing in production. Analyze this full stack trace and tell me the root cause.\n`\nTraceback (most recent call last):\n  File \"/opt/app-root/src/main.py\", line 215, in <module>\n    main()\n  File \"/opt/app-root/src/main.py\", line 198, in main\n    db.connect(os.environ.get(\x27DATABASE_URL\x27))\n  File \"/opt/app-root/lib/python3.9/site-packages/db_client/connector.py\", line 89, in _try_connect\n    raise ConnectionTimeoutError(f\"Failed to connect to \x7bhost\x7d after \x7bretries\x7d attempts\")\ndb_client.errors.ConnectionTimeoutError: Failed to connect to db.production.svc.cluster.local after 3 attempts\n... (stack trace continues)\n...\nLast error received from driver:\npsycopg2.OperationalError: could not connect to server: Connection refused\n`\n"

/-- The repeated noise line appended for huge prompts. -/
def noise_line : String := "\n... (simulated repeating log noise)..."

/-- The configured record count (`num_prompts = 100`). -/
def num_prompts : Nat := 100

/-- Python `str.strip()` at the character-list level: drop the maximal
whitespace prefix and suffix.  (`Char.isWhitespace` covers the space, tab,
carriage-return and newline characters, which are the only whitespace
characters occurring in the generator's templates.) -/
def stripList (l : List Char) : List Char :=
  ((l.dropWhile Char.isWhitespace).reverse.dropWhile Char.isWhitespace).reverse

/-- Python `str.strip()` on strings. -/

def pyStrip (s : String) : String := ⟨stripList s.data⟩

/-- Fuelled worker for Python `str.replace`: scan left to right, replace
each non-overlapping occurrence of `pat`, never rescanning the replacement.
One unit of fuel is spent per emitted position, so `l.length` fuel always
suffices. -/
def replFuel (pat repl : List Char) : Nat → List Char → List Char
  | _, [] => []
  | 0, l => l
  | fuel + 1, a :: t =>
    if pat.isPrefixOf (a :: t) && !pat.isEmpty then
      repl ++ replFuel pat repl fuel (t.drop (pat.length - 1))
    else
      a :: replFuel pat repl fuel t

/-- Python `s.replace(pat, repl)` (for the nonempty patterns used by the
generator). -/
def pyReplace (s pat repl : String) : String :=
  ⟨replFuel pat.data repl.data s.data.length s.data⟩

/-- Python `s * n` for strings: `n` concatenated copies. -/

def listMul (l : List Char) : Nat → List Char
  | 0 => []
  | n + 1 => l ++ listMul l n

/-- Python `s * n` on strings. -/
def strMul (s : String) (n : Nat) : String := ⟨listMul s.data n⟩

/-- Decimal digit character (of `n mod 10`). -/
def digitChar10 (n : Nat) : Char := Char.ofNat (48 + n % 10)

/-- Python `f"\x7bi:03d\x7d"`: the decimal form of `i`, zero-padded on the
left to width 3 (numbers of four or more digits print unpadded). -/
def fmt03 (i : Nat) : String :=
  if i < 1000 then
    ⟨[digitChar10 (i / 100), digitChar10 (i / 10), digitChar10 i]⟩
  else
    toString i

/-- One iteration's random draws: `rand_val` is `random.random()`,
`choice_idx` is the index drawn by `random.choice` inside the chosen pool,
and `spam_lines` is `random.randint(5, 50)`. -/
structure Draw where
  rand_val : Rat
  choice_idx : Nat
  spam_lines : Nat

/-- Python `random.choice(xs)` given the drawn index (always a valid index;
the reduction mod `xs.length` encodes that). -/
def pyChoice (xs : List String) (idx : Nat) : String :=
  xs.getD (idx % xs.length) ""

/-- The `prompt_text` value built by iteration `i` of the generation loop
(lines 80–93): a weighted branch on `rand_val` selecting a short prompt, a
medium prompt, the long template with its identifier rewritten, or the huge
template plus repeated noise lines. -/
def prompt_text (i : Nat) (d : Draw) : String :=
  if d.rand_val < 0.40 then
    pyChoice short_prompts d.choice_idx
  else if d.rand_val < 0.75 then
    pyChoice medium_prompts d.choice_idx
  else if d.rand_val < 0.90 then
    pyReplace long_yaml_example "deploy-using-helm" ("deploy-using-helm-" ++ fmt03 i)
  else
    huge_stack_trace_example ++ strMul noise_line d.spam_lines

/-- The record's `prompt` field: `prompt_text.strip()` (line 97). -/

def record_prompt (i : Nat) (d : Draw) : String := pyStrip (prompt_text i d)

/-- The list of `prompt` fields produced by one full run. -/
def output_prompts (draws : Nat → Draw) : List String :=
  (List.range num_prompts).map (fun i => record_prompt i (draws i))

/-- Hexadecimal digit character (of `n mod 16`), lowercase as in Python. -/
def hexDigit (n : Nat) : Char := "0123456789abcdef".data.getD (n % 16) '0'

/-- Escaping of one character inside a JSON string literal, as performed by
`json.dumps` with its defaults (`ensure_ascii=True`): the two-character
escapes, `\u00XX` for remaining control characters, ASCII printables
verbatim, `\uXXXX` for the basic multilingual plane and surrogate pairs
beyond it. -/
def jsonEscapeChar (c : Char) : List Char :=
  if c = '"' then ['\\', '"']
  else if c = '\\' then ['\\', '\\']
  else if c = '\n' then ['\\', 'n']
  else if c = '\r' then ['\\', 'r']
  else if c = '\t' then ['\\', 't']
  else if c.toNat = 8 then ['\\', 'b']
  else if c.toNat = 12 then ['\\', 'f']
  else if c.toNat < 32 then
    ['\\', 'u', '0', '0', hexDigit (c.toNat / 16), hexDigit c.toNat]
  else if c.toNat < 127 then [c]
  else if c.toNat < 65536 then
    ['\\', 'u', hexDigit (c.toNat / 4096), hexDigit (c.toNat / 256),
     hexDigit (c.toNat / 16), hexDigit c.toNat]
  else
    ['\\', 'u', hexDigit ((55296 + (c.toNat - 65536) / 1024) / 4096),
     hexDigit ((55296 + (c.toNat - 65536) / 1024) / 256),
     hexDigit ((55296 + (c.toNat - 65536) / 1024) / 16),
     hexDigit (55296 + (c.toNat - 65536) / 1024),
     '\\', 'u', hexDigit ((56320 + (c.toNat - 65536) % 1024) / 4096),
     hexDigit ((56320 + (c.toNat - 65536) % 1024) / 256),
     hexDigit ((56320 + (c.toNat - 65536) % 1024) / 16),
     hexDigit (56320 + (c.toNat - 65536) % 1024)]

/-- JSON string-content escaping for a whole string. -/

def jsonEscape (s : String) : String := ⟨(s.data.map jsonEscapeChar).flatten⟩

/-- Python `json.dumps(\x7b"prompt": p\x7d)`: the serialized one-record object
(the dict has a single key, so the default separators yield exactly this
shape). -/
def json_dumps_record (p : String) : String :=
  "\x7b\"prompt\": \"" ++ jsonEscape p ++ "\"\x7d"

/-- One line written to the output file (line 101): the serialized record
followed by the explicit newline. -/
def output_line (i : Nat) (d : Draw) : String :=
  json_dumps_record (record_prompt i d) ++ "\n"

/-- The whole output file of one run. -/

def output_file (draws : Nat → Draw) : String :=
  String.join ((List.range num_prompts).map (fun i => output_line i (draws i)))

def huge_s : String :=
  "My application is crashing in production. Analyze this full stack trace and tell me the root cause.\n`\nTraceback (most recent call last):\n  File \"/opt/app-root/src/main.py\", line 215, in <module>\n    main()\n  File \"/opt/app-root/src/main.py\", line 198, in main\n    db.connect(os.environ.get(\x27DATABASE_URL\x27))\n  File \"/opt/app-root/lib/python3.9/site-packages/db_client/connector.py\", line 89, in _try_connect\n    raise ConnectionTimeoutError(f\"Failed to connect to \x7bhost\x7d after \x7bretries\x7d attempts\")\ndb_client.errors.ConnectionTimeoutError: Failed to connect to db.production.svc.cluster.local after 3 attempts\n... (stack trace continues)\n...\nLast error received from driver:\npsycopg2.OperationalError: could not connect to server: Connection refused\n`\n"

def long_before : String := "\nPlease analyze this Tekton Task YAML for any syntax errors or best-practice violations:\napiVersion: tekton.dev/v1\nkind: Task\nmetadata:\n  name: "

def long_after : String := "\nspec:\n  params:\n    - name: helm-chart-path\n      description: The path to the helm chart\n      type: string\n    - name: release-name\n      description: The name of the release\n      type: string\n  steps:\n    - name: helm-deploy\n      image: \"alpine/helm:3.10.0\"\n      script: |\n        #!/usr/bin/env sh\n        echo \"Deploying $(params.release-name) from $(params.helm-chart-path)...\"\n"

def long_before_s : String := "Please analyze this Tekton Task YAML for any syntax errors or best-practice violations:\napiVersion: tekton.dev/v1\nkind: Task\nmetadata:\n  name: "

def long_after_s : String := "\nspec:\n  params:\n    - name: helm-chart-path\n      description: The path to the helm chart\n      type: string\n    - name: release-name\n      description: The name of the release\n      type: string\n  steps:\n    - name: helm-deploy\n      image: \"alpine/helm:3.10.0\"\n      script: |\n        #!/usr/bin/env sh\n        echo \"Deploying $(params.release-name) from $(params.helm-chart-path)...\""

/-- Error message of step 6 of the handler (`app.py` line 535). -/
def unknown_structure_msg : String :=
  "Unknown file structure. Expected \x27benchmarks\x27 key (for YAML) or \x27results\x27 and \x27config\x27 keys (for JSON)."

/-- Substring test over character lists (used to state that an error message
names the expected keys). -/
def listContains (needle hay : List Char) : Bool :=
  (List.range (hay.length + 1)).any (fun k => needle.isPrefixOf (hay.drop k))

def constParse (o : ParseOutcome) : String → ParseOutcome := fun _ => o

def constFetch (o : S3Outcome) : String → String → S3Outcome := fun _ _ => o

def sampleCfg : AppConfig := ⟨some "my-bucket", true⟩

def sampleLmEval : PyValue := .pyDict [("results", .pyDict []), ("config", .pyDict [])]

def sampleBench : PyValue := .pyDict [("benchmarks", .pyList [])]

def sampleDraws : Nat → Draw := fun _ => ⟨0.5, 0, 5⟩

/-! ## Lemmas and claim theorems -/

theorem dropWhile_head?_false {α : Type} {p : α → Bool} :
    ∀ (l : List α) (a : α), (l.dropWhile p).head? = some a → p a = false := by
  intro l
  induction l with
  | nil => intro a h; simp [List.dropWhile] at h
  | cons b t ih =>
    intro a h
    by_cases hp : p b
    · rw [List.dropWhile_cons_of_pos hp] at h
      exact ih a h
    · rw [List.dropWhile_cons_of_neg hp] at h
      simp at h
      simp only [Bool.not_eq_true] at hp
      rw [← h]
      exact hp

theorem dropWhile_eq_self_of_head? {α : Type} {p : α → Bool} {l : List α}
    (h : ∀ a, l.head? = some a → p a = false) : l.dropWhile p = l := by
  cases l with
  | nil => rfl
  | cons b t =>
    have hb : p b = false := h b rfl
    exact List.dropWhile_cons_of_neg (by simp [hb])

theorem getLast?_cons_of_ne {α : Type} {a : α} {t : List α} (h : t ≠ []) :
    (a :: t).getLast? = t.getLast? := by
  cases t with
  | nil => exact absurd rfl h
  | cons b t' => exact List.getLast?_cons_cons

theorem getLast?_dropWhile {α : Type} {p : α → Bool} :
    ∀ l : List α, l.dropWhile p ≠ [] → (l.dropWhile p).getLast? = l.getLast? := by
  intro l
  induction l with
  | nil => intro h; exact absurd rfl h
  | cons b t ih =>
    intro h
    by_cases hp : p b
    · rw [List.dropWhile_cons_of_pos hp] at h ⊢
      have ht : t ≠ [] := by
        intro he; rw [he] at h; exact h rfl
      rw [ih h, getLast?_cons_of_ne ht]
    · rw [List.dropWhile_cons_of_neg hp]

theorem stripList_idem (l : List Char) : stripList (stripList l) = stripList l := by
  by_cases hx : stripList l = []
  · rw [hx]; rfl
  · have hy0 : (l.dropWhile Char.isWhitespace).reverse.dropWhile Char.isWhitespace ≠ [] := by
      intro h
      apply hx
      show ((l.dropWhile Char.isWhitespace).reverse.dropWhile Char.isWhitespace).reverse = []
      rw [h]
      rfl
    have hhead : ∀ a, (stripList l).head? = some a → a.isWhitespace = false := by
      intro a ha
      have hrw : stripList l =
          ((l.dropWhile Char.isWhitespace).reverse.dropWhile Char.isWhitespace).reverse := rfl
      rw [hrw, List.head?_reverse, getLast?_dropWhile _ hy0, List.getLast?_reverse] at ha
      exact dropWhile_head?_false l a ha
    have hlast : ∀ a, (stripList l).getLast? = some a → a.isWhitespace = false := by
      intro a ha
      have hrw : stripList l =
          ((l.dropWhile Char.isWhitespace).reverse.dropWhile Char.isWhitespace).reverse := rfl
      rw [hrw, List.getLast?_reverse] at ha
      exact dropWhile_head?_false _ a ha
    show (((stripList l).dropWhile Char.isWhitespace).reverse.dropWhile
      Char.isWhitespace).reverse = stripList l
    rw [dropWhile_eq_self_of_head? hhead]
    rw [dropWhile_eq_self_of_head? (fun a ha => hlast a (by rwa [List.head?_reverse] at ha))]
    exact List.reverse_reverse _

theorem mem_dropWhile_of_mem {α : Type} {p : α → Bool} {c : α} :
    ∀ {l : List α}, c ∈ l → p c = false → c ∈ l.dropWhile p := by
  intro l
  induction l with
  | nil => intro h _; simp at h
  | cons b t ih =>
    intro h hc
    by_cases hp : p b
    · rw [List.dropWhile_cons_of_pos hp]
      rcases List.mem_cons.mp h with h1 | h2
      · subst h1; rw [hc] at hp; simp at hp
      · exact ih h2 hc
    · rw [List.dropWhile_cons_of_neg hp]
      exact h

theorem stripList_ne_nil {l : List Char} {c : Char} (hc : c ∈ l)
    (hw : c.isWhitespace = false) : stripList l ≠ [] := by
  unfold stripList
  apply List.ne_nil_of_mem (a := c)
  rw [List.mem_reverse]
  apply mem_dropWhile_of_mem _ hw
  rw [List.mem_reverse]
  exact mem_dropWhile_of_mem hc hw

theorem pyStrip_idem (s : String) : pyStrip (pyStrip s) = pyStrip s := by
  show (⟨stripList (stripList s.data)⟩ : String) = ⟨stripList s.data⟩
  rw [stripList_idem]

theorem pyStrip_ne_empty {s : String} {c : Char} (hc : c ∈ s.data)
    (hw : c.isWhitespace = false) : pyStrip s ≠ "" := by
  intro h
  have h2 : stripList s.data = [] := congrArg String.data h
  exact stripList_ne_nil hc hw h2

theorem listMul_reverse_head : ∀ n : Nat, ∃ t, (listMul noise_line.data (n+1)).reverse = '.' :: t := by
  intro n
  induction n with
  | zero => exact ⟨_, rfl⟩
  | succ m ih =>
    obtain ⟨t, ht⟩ := ih
    refine ⟨t ++ noise_line.data.reverse, ?_⟩
    show (noise_line.data ++ listMul noise_line.data (m+1)).reverse = _
    rw [List.reverse_append, ht, List.cons_append]

theorem listMul_length (l : List Char) : ∀ n, (listMul l n).length = n * l.length := by
  intro n
  induction n with
  | zero => simp [listMul]
  | succ m ih =>
    show (l ++ listMul l m).length = (m + 1) * l.length
    rw [List.length_append, ih]
    ring

theorem strip_huge_decomp (n : Nat) (h : 1 ≤ n) :
    stripList (huge_stack_trace_example.data ++ listMul noise_line.data n) =
      huge_s.data ++ listMul noise_line.data n := by
  obtain ⟨m, hm⟩ : ∃ m, n = m + 1 := ⟨n - 1, by omega⟩
  subst hm
  obtain ⟨t, ht⟩ := listMul_reverse_head m
  have hA : huge_stack_trace_example.data.dropWhile Char.isWhitespace = huge_s.data := by rfl
  have hAe : huge_s.data.isEmpty = false := by rfl
  unfold stripList
  rw [List.dropWhile_append, hA, hAe]
  simp only [Bool.false_eq_true, if_false]
  rw [List.reverse_append, ht, List.cons_append]
  rw [List.dropWhile_cons_of_neg (by decide)]
  rw [← List.cons_append, ← ht, List.reverse_append, List.reverse_reverse, List.reverse_reverse]

theorem noise_len : noise_line.data.length = 39 := by rfl

theorem huge_s_len : huge_s.data.length = 750 := by rfl

theorem huge_stripped_len : (pyStrip huge_stack_trace_example).length = 749 := by rfl

theorem data_append_str (a b : String) : (a ++ b).data = a.data ++ b.data := rfl

theorem digitChar10_toNat (n : Nat) : (digitChar10 n).toNat = 48 + n % 10 := by
  have h : n % 10 < 10 := Nat.mod_lt _ (by norm_num)
  have key : ∀ k, k < 10 → (Char.ofNat (48 + k)).toNat = 48 + k := by decide
  exact key _ h

theorem fmt03_eq_of_lt (i : Nat) (h : i < 1000) :
    fmt03 i = ⟨[digitChar10 (i / 100), digitChar10 (i / 10), digitChar10 i]⟩ := by
  unfold fmt03
  rw [if_pos h]

theorem fmt03_len (i : Nat) (h : i < 1000) : (fmt03 i).data.length = 3 := by
  rw [fmt03_eq_of_lt i h]
  rfl

theorem fmt03_inj {i j : Nat} (hi : i < 1000) (hj : j < 1000)
    (h : fmt03 i = fmt03 j) : i = j := by
  rw [fmt03_eq_of_lt i hi, fmt03_eq_of_lt j hj] at h
  have hd : [digitChar10 (i / 100), digitChar10 (i / 10), digitChar10 i] =
      [digitChar10 (j / 100), digitChar10 (j / 10), digitChar10 j] := congrArg String.data h
  injection hd with h1 hd2
  injection hd2 with h2 hd3
  injection hd3 with h3 hd4
  have e1 := congrArg Char.toNat h1
  have e2 := congrArg Char.toNat h2
  have e3 := congrArg Char.toNat h3
  rw [digitChar10_toNat, digitChar10_toNat] at e1 e2 e3
  omega

theorem long_replace_decomp (r : String) :
    (pyReplace long_yaml_example "deploy-using-helm" r).data =
      long_before.data ++ r.data ++ long_after.data := by rfl

theorem strip_long_decomp (X : List Char) :
    stripList (long_before.data ++ X ++ long_after.data) =
      long_before_s.data ++ X ++ long_after_s.data := by
  have hA : long_before.data.dropWhile Char.isWhitespace = long_before_s.data := by rfl
  have hAe : long_before_s.data.isEmpty = false := by rfl
  have hB : long_after.data.reverse.dropWhile Char.isWhitespace = long_after_s.data.reverse := by
    rfl
  have hBe : (long_after_s.data.reverse).isEmpty = false := by rfl
  unfold stripList
  rw [List.append_assoc, List.dropWhile_append, hA, hAe]
  simp only [Bool.false_eq_true, if_false, List.reverse_append]
  rw [List.append_assoc, List.dropWhile_append, hB, hBe]
  simp only [Bool.false_eq_true, if_false, List.reverse_append, List.reverse_reverse,
    List.append_assoc]

/-- C1: a retrieved text whose JSON parse yields a mapping with both results
and config keys is classified lm-eval and relayed whole with status 200. -/
theorem C1_lm_eval_classification (cfg : AppConfig) (jl yl : String → ParseOutcome)
    (so : String → String → S3Outcome) (file_key text : String) (v : PyValue)
    (hkey : file_key ≠ "")
    (hcfg : truthyOptStr cfg.s3BucketName = true) (hclient : cfg.s3ClientTruthy = true)
    (hfetch : so (cfg.s3BucketName.getD "") file_key = .ok text)
    (hjson : jl text = .ok v)
    (hshape : (v.isDict && v.hasKey "results" && v.hasKey "config") = true) :
    get_benchmark_data cfg jl yl so (some file_key) =
      ⟨200, .envelope "lm-eval" v file_key⟩ := by
  simp only [get_benchmark_data]
  rw [if_neg (by simp [hkey])]
  rw [if_neg (by simp [hcfg, hclient])]
  rw [hfetch]
  dsimp only
  rw [hjson]
  dsimp only
  rw [if_pos hshape]


theorem reach_yamlStep (cfg : AppConfig) (jl yl : String → ParseOutcome)
    (so : String → String → S3Outcome) (file_key text : String)
    (hkey : file_key ≠ "") (hcfg : truthyOptStr cfg.s3BucketName = true)
    (hclient : cfg.s3ClientTruthy = true)
    (hfetch : so (cfg.s3BucketName.getD "") file_key = .ok text)
    (hnot : NotLmEval (jl text)) :
    get_benchmark_data cfg jl yl so (some file_key) = yamlStep yl text file_key := by
  simp only [get_benchmark_data]
  rw [if_neg (by simp [hkey]), if_neg (by simp [hcfg, hclient]), hfetch]
  dsimp only
  rcases hnot with ⟨m, hm⟩ | ⟨v, hv, hshape⟩
  · rw [hm]
  · rw [hv]
    dsimp only
    rw [if_neg (by simp [hshape])]

theorem yamlStep_benchmark (yl : String → ParseOutcome) (text fk : String) (w : PyValue)
    (hyaml : yl text = .ok w) (hshape : (w.isDict && w.hasKey "benchmarks") = true) :
    yamlStep yl text fk = ⟨200, .envelope "benchmark" w fk⟩ := by
  simp only [yamlStep]
  rw [hyaml]
  dsimp only
  rw [if_pos hshape]

theorem yamlStep_unknown (yl : String → ParseOutcome) (text fk : String) (w : PyValue)
    (hyaml : yl text = .ok w) (hshape : (w.isDict && w.hasKey "benchmarks") = false) :
    yamlStep yl text fk = ⟨400, .error unknown_structure_msg⟩ := by
  simp only [yamlStep]
  rw [hyaml]
  dsimp only
  rw [if_neg (by simp [hshape])]
  rfl

theorem yamlStep_decode_error (yl : String → ParseOutcome) (text fk : String) (m : String)
    (hyaml : yl text = .decodeError m) :
    yamlStep yl text fk = ⟨500, .error ("Error parsing YAML file: " ++ m)⟩ := by
  simp only [yamlStep]
  rw [hyaml]







/-- C2: a text not classified lm-eval whose YAML parse yields a mapping with
a benchmarks key is classified benchmark. -/
theorem C2_benchmark_classification (cfg : AppConfig) (jl yl : String → ParseOutcome)
    (so : String → String → S3Outcome) (file_key text : String) (w : PyValue)
    (hkey : file_key ≠ "") (hcfg : truthyOptStr cfg.s3BucketName = true)
    (hclient : cfg.s3ClientTruthy = true)
    (hfetch : so (cfg.s3BucketName.getD "") file_key = .ok text)
    (hnot : NotLmEval (jl text))
    (hyaml : yl text = .ok w)
    (hshape : (w.isDict && w.hasKey "benchmarks") = true) :
    get_benchmark_data cfg jl yl so (some file_key) =
      ⟨200, .envelope "benchmark" w file_key⟩ := by
  rw [reach_yamlStep cfg jl yl so file_key text hkey hcfg hclient hfetch hnot]
  exact yamlStep_benchmark yl text file_key w hyaml hshape

/-- C2 witness. -/

theorem C2_benchmark_classification_witness :
    get_benchmark_data sampleCfg (constParse (.ok sampleBench)) (constParse (.ok sampleBench))
      (constFetch (.ok "txt")) (some "bench.json") =
      ⟨200, .envelope "benchmark" sampleBench "bench.json"⟩ :=
  C2_benchmark_classification sampleCfg (constParse (.ok sampleBench))
    (constParse (.ok sampleBench)) (constFetch (.ok "txt")) "bench.json" "txt" sampleBench
    (by decide) rfl rfl rfl (Or.inr ⟨sampleBench, rfl, by rfl⟩) rfl (by rfl)

/-- C1 witness. -/
theorem C1_lm_eval_classification_witness :
    get_benchmark_data sampleCfg (constParse (.ok sampleLmEval)) (constParse (.decodeError "e"))
      (constFetch (.ok "txt")) (some "res.json") =
      ⟨200, .envelope "lm-eval" sampleLmEval "res.json"⟩ :=
  C1_lm_eval_classification sampleCfg (constParse (.ok sampleLmEval)) (constParse (.decodeError "e"))
    (constFetch (.ok "txt")) "res.json" "txt" sampleLmEval
    (by decide) rfl rfl rfl rfl (by rfl)

/-- C3: a text matching neither shape yields the 400 unknown-structure error
whose message names both expected shapes. -/
theorem C3_unknown_structure_400 (cfg : AppConfig) (jl yl : String → ParseOutcome)
    (so : String → String → S3Outcome) (file_key text : String) (w : PyValue)
    (hkey : file_key ≠ "") (hcfg : truthyOptStr cfg.s3BucketName = true)
    (hclient : cfg.s3ClientTruthy = true)
    (hfetch : so (cfg.s3BucketName.getD "") file_key = .ok text)
    (hnot : NotLmEval (jl text))
    (hyaml : yl text = .ok w)
    (hshape : (w.isDict && w.hasKey "benchmarks") = false) :
    get_benchmark_data cfg jl yl so (some file_key) =
      ⟨400, .error unknown_structure_msg⟩ ∧
    listContains "benchmarks".data unknown_structure_msg.data = true ∧
    listContains "results".data unknown_structure_msg.data = true ∧
    listContains "config".data unknown_structure_msg.data = true := by
  refine ⟨?_, by decide, by decide, by decide⟩
  rw [reach_yamlStep cfg jl yl so file_key text hkey hcfg hclient hfetch hnot]
  exact yamlStep_unknown yl text file_key w hyaml hshape

/-- C3 witness, at the spec's own example document. -/

theorem C3_unknown_structure_400_witness :
    get_benchmark_data sampleCfg (constParse (.ok (.pyDict [("foo", .pyInt 1)])))
      (constParse (.ok (.pyDict [("foo", .pyInt 1)]))) (constFetch (.ok "txt"))
      (some "odd.json") = ⟨400, .error unknown_structure_msg⟩ :=
  (C3_unknown_structure_400 sampleCfg (constParse (.ok (.pyDict [("foo", .pyInt 1)])))
    (constParse (.ok (.pyDict [("foo", .pyInt 1)]))) (constFetch (.ok "txt"))
    "odd.json" "txt" (.pyDict [("foo", .pyInt 1)])
    (by decide) rfl rfl rfl (Or.inr ⟨_, rfl, by rfl⟩) rfl (by rfl)).1

/-- C4: the three retrieval failure kinds are distinguished. -/
theorem C4_retrieval_failures (cfg : AppConfig) (jl yl : String → ParseOutcome)
    (so : String → String → S3Outcome) (file_key : String)
    (hkey : file_key ≠ "") (hcfg : truthyOptStr cfg.s3BucketName = true)
    (hclient : cfg.s3ClientTruthy = true) :
    (∀ msg, so (cfg.s3BucketName.getD "") file_key = .clientError "NoSuchKey" msg →
      get_benchmark_data cfg jl yl so (some file_key) =
        ⟨404, .error ("File not found in S3 bucket: " ++ file_key)⟩) ∧
    (so (cfg.s3BucketName.getD "") file_key = .noCredentials →
      get_benchmark_data cfg jl yl so (some file_key) =
        ⟨500, .error "Server S3 credentials are invalid or missing."⟩) ∧
    (∀ code msg, code ≠ "NoSuchKey" →
      so (cfg.s3BucketName.getD "") file_key = .clientError code msg →
      get_benchmark_data cfg jl yl so (some file_key) =
        ⟨500, .error ("S3 Error: " ++ msg)⟩) ∧
    (∀ msg, so (cfg.s3BucketName.getD "") file_key = .exn msg →
      get_benchmark_data cfg jl yl so (some file_key) =
        ⟨500, .error ("An unexpected error occurred: " ++ msg)⟩) := by
  refine ⟨?_, ?_, ?_, ?_⟩
  · intro msg hfetch
    simp only [get_benchmark_data]
    rw [if_neg (by simp [hkey]), if_neg (by simp [hcfg, hclient]), hfetch]
    dsimp only
    rw [if_pos (by rfl)]
  · intro hfetch
    simp only [get_benchmark_data]
    rw [if_neg (by simp [hkey]), if_neg (by simp [hcfg, hclient]), hfetch]
  · intro code msg hcode hfetch
    simp only [get_benchmark_data]
    rw [if_neg (by simp [hkey]), if_neg (by simp [hcfg, hclient]), hfetch]
    dsimp only
    rw [if_neg (by simp [hcode])]
  · intro msg hfetch
    simp only [get_benchmark_data]
    rw [if_neg (by simp [hkey]), if_neg (by simp [hcfg, hclient]), hfetch]

/-- C4 witness: all three failure kinds at concrete inputs. -/
theorem C4_retrieval_failures_witness :
    (get_benchmark_data sampleCfg (constParse (.decodeError "e")) (constParse (.decodeError "e"))
      (constFetch (.clientError "NoSuchKey" "The specified key does not exist."))
      (some "missing.json") =
        ⟨404, .error "File not found in S3 bucket: missing.json"⟩) ∧
    (get_benchmark_data sampleCfg (constParse (.decodeError "e")) (constParse (.decodeError "e"))
      (constFetch .noCredentials) (some "a.json") =
        ⟨500, .error "Server S3 credentials are invalid or missing."⟩) ∧
    (get_benchmark_data sampleCfg (constParse (.decodeError "e")) (constParse (.decodeError "e"))
      (constFetch (.clientError "AccessDenied" "Access Denied")) (some "a.json") =
        ⟨500, .error "S3 Error: Access Denied"⟩) :=
  ⟨(C4_retrieval_failures sampleCfg (constParse (.decodeError "e")) (constParse (.decodeError "e"))
      (constFetch (.clientError "NoSuchKey" "The specified key does not exist."))
      "missing.json" (by decide) rfl rfl).1 "The specified key does not exist." rfl,
   (C4_retrieval_failures sampleCfg (constParse (.decodeError "e")) (constParse (.decodeError "e"))
      (constFetch .noCredentials) "a.json" (by decide) rfl rfl).2.1 rfl,
   (C4_retrieval_failures sampleCfg (constParse (.decodeError "e")) (constParse (.decodeError "e"))
      (constFetch (.clientError "AccessDenied" "Access Denied")) "a.json"
      (by decide) rfl rfl).2.2.1 "AccessDenied" "Access Denied" (by decide) rfl⟩

/-- C6: a YAML syntax error after the JSON fallthrough yields 500 with the
parser message embedded. -/
theorem C6_yaml_error_500 (cfg : AppConfig) (jl yl : String → ParseOutcome)
    (so : String → String → S3Outcome) (file_key text : String) (m : String)
    (hkey : file_key ≠ "") (hcfg : truthyOptStr cfg.s3BucketName = true)
    (hclient : cfg.s3ClientTruthy = true)
    (hfetch : so (cfg.s3BucketName.getD "") file_key = .ok text)
    (hnot : NotLmEval (jl text))
    (hyaml : yl text = .decodeError m) :
    get_benchmark_data cfg jl yl so (some file_key) =
      ⟨500, .error ("Error parsing YAML file: " ++ m)⟩ := by
  rw [reach_yamlStep cfg jl yl so file_key text hkey hcfg hclient hfetch hnot]
  exact yamlStep_decode_error yl text file_key m hyaml

/-- C6 witness. -/

theorem C6_yaml_error_500_witness :
    get_benchmark_data sampleCfg (constParse (.decodeError "bad json"))
      (constParse (.decodeError "mapping values are not allowed here"))
      (constFetch (.ok ":")) (some "x.yaml") =
      ⟨500, .error "Error parsing YAML file: mapping values are not allowed here"⟩ :=
  C6_yaml_error_500 sampleCfg (constParse (.decodeError "bad json"))
    (constParse (.decodeError "mapping values are not allowed here"))
    (constFetch (.ok ":")) "x.yaml" ":" "mapping values are not allowed here"
    (by decide) rfl rfl rfl (Or.inl ⟨"bad json", rfl⟩) rfl

/-- C10: a YAML parse yielding a non-mapping value falls through to the 400
unknown-structure client error, not a 500. -/
theorem C10_non_mapping_yaml_400 (cfg : AppConfig) (jl yl : String → ParseOutcome)
    (so : String → String → S3Outcome) (file_key text : String) (w : PyValue)
    (hkey : file_key ≠ "") (hcfg : truthyOptStr cfg.s3BucketName = true)
    (hclient : cfg.s3ClientTruthy = true)
    (hfetch : so (cfg.s3BucketName.getD "") file_key = .ok text)
    (hnot : NotLmEval (jl text))
    (hyaml : yl text = .ok w)
    (hdict : w.isDict = false) :
    get_benchmark_data cfg jl yl so (some file_key) =
      ⟨400, .error unknown_structure_msg⟩ ∧
    (get_benchmark_data cfg jl yl so (some file_key)).status = 400 := by
  have h : get_benchmark_data cfg jl yl so (some file_key) =
      ⟨400, .error unknown_structure_msg⟩ := by
    rw [reach_yamlStep cfg jl yl so file_key text hkey hcfg hclient hfetch hnot]
    exact yamlStep_unknown yl text file_key w hyaml (by simp [hdict])
  exact ⟨h, by rw [h]⟩

/-- C10 witness: YAML null document. -/

theorem C10_non_mapping_yaml_400_witness :
    get_benchmark_data sampleCfg (constParse (.decodeError "e")) (constParse (.ok .pyNone))
      (constFetch (.ok "")) (some "empty.yaml") = ⟨400, .error unknown_structure_msg⟩ :=
  (C10_non_mapping_yaml_400 sampleCfg (constParse (.decodeError "e")) (constParse (.ok .pyNone))
    (constFetch (.ok "")) "empty.yaml" "" .pyNone
    (by decide) rfl rfl rfl (Or.inl ⟨"e", rfl⟩) rfl rfl).1

/-- C5 counterexample: with the store fully configured but unreachable (the
fetch raises a connection exception), the handler does attempt the fetch and
returns the generic unexpected-error 500, not the misconfiguration error the
claim requires, so the reachability half of the claim is false. -/
theorem C5_counterexample :
    get_benchmark_data sampleCfg (constParse (.decodeError "e")) (constParse (.decodeError "e"))
      (constFetch (.exn "Could not connect to the endpoint URL"))
      (some "results.yaml") =
      ⟨500, .error "An unexpected error occurred: Could not connect to the endpoint URL"⟩ ∧
    get_benchmark_data sampleCfg (constParse (.decodeError "e")) (constParse (.decodeError "e"))
      (constFetch (.exn "Could not connect to the endpoint URL"))
      (some "results.yaml") ≠
      ⟨500, .error "Server is not configured for S3 access."⟩ := by
  refine ⟨by rfl, ?_⟩
  intro h
  rw [show get_benchmark_data sampleCfg (constParse (.decodeError "e"))
      (constParse (.decodeError "e"))
      (constFetch (.exn "Could not connect to the endpoint URL")) (some "results.yaml") =
      ⟨500, .error "An unexpected error occurred: Could not connect to the endpoint URL"⟩
    from rfl] at h
  simp at h

/-- C5 amended: when the bucket name or the client object is falsy, the
handler returns the 500 misconfiguration error, and it does so for every
store oracle, i.e. without consulting the store at all. -/
theorem C5_amended_misconfigured_500 (cfg : AppConfig) (jl yl : String → ParseOutcome)
    (so : String → String → S3Outcome) (file_key : String)
    (hkey : file_key ≠ "")
    (hmis : truthyOptStr cfg.s3BucketName = false ∨ cfg.s3ClientTruthy = false) :
    get_benchmark_data cfg jl yl so (some file_key) =
      ⟨500, .error "Server is not configured for S3 access."⟩ := by
  simp only [get_benchmark_data]
  rw [if_neg (by simp [hkey])]
  rcases hmis with h | h
  · rw [if_pos (by simp [h])]
  · rw [if_pos (by simp [h])]

/-- C5 amended witness: unset bucket name. -/

theorem C5_amended_misconfigured_500_witness :
    get_benchmark_data ⟨none, true⟩ (constParse (.decodeError "e"))
      (constParse (.decodeError "e")) (constFetch (.ok "txt")) (some "f.yaml") =
      ⟨500, .error "Server is not configured for S3 access."⟩ :=
  C5_amended_misconfigured_500 ⟨none, true⟩ (constParse (.decodeError "e"))
    (constParse (.decodeError "e")) (constFetch (.ok "txt")) "f.yaml"
    (by decide) (Or.inl rfl)

theorem prompt_text_eq_short {i : Nat} {d : Draw} (h : d.rand_val < 0.40) :
    prompt_text i d = pyChoice short_prompts d.choice_idx := by
  simp only [prompt_text]
  rw [if_pos h]

theorem prompt_text_eq_medium {i : Nat} {d : Draw} (h1 : ¬ d.rand_val < 0.40)
    (h2 : d.rand_val < 0.75) :
    prompt_text i d = pyChoice medium_prompts d.choice_idx := by
  simp only [prompt_text]
  rw [if_neg h1, if_pos h2]

theorem prompt_text_eq_long {i : Nat} {d : Draw} (h2 : ¬ d.rand_val < 0.75)
    (h3 : d.rand_val < 0.90) :
    prompt_text i d =
      pyReplace long_yaml_example "deploy-using-helm" ("deploy-using-helm-" ++ fmt03 i) := by
  have h1 : ¬ d.rand_val < 0.40 := fun hlt => h2 (lt_trans hlt (by norm_num))
  simp only [prompt_text]
  rw [if_neg h1, if_neg h2, if_pos h3]

theorem prompt_text_eq_huge {i : Nat} {d : Draw} (h3 : ¬ d.rand_val < 0.90) :
    prompt_text i d = huge_stack_trace_example ++ strMul noise_line d.spam_lines := by
  have h2 : ¬ d.rand_val < 0.75 := fun hlt => h3 (lt_trans hlt (by norm_num))
  have h1 : ¬ d.rand_val < 0.40 := fun hlt => h3 (lt_trans hlt (by norm_num))
  simp only [prompt_text]
  rw [if_neg h1, if_neg h2, if_neg h3]

theorem pyChoice_mem (xs : List String) (idx : Nat) (h : xs ≠ []) :
    pyChoice xs idx ∈ xs := by
  unfold pyChoice
  have hl : idx % xs.length < xs.length := Nat.mod_lt _ (List.length_pos.mpr h)
  rw [List.getD_eq_getElem?_getD, List.getElem?_eq_getElem hl]
  exact List.getElem_mem hl

theorem short_prompts_nonws :
    ∀ s ∈ short_prompts, ∃ c ∈ s.data, c.isWhitespace = false := by decide

theorem medium_prompts_nonws :
    ∀ s ∈ medium_prompts, ∃ c ∈ s.data, c.isWhitespace = false := by decide

theorem hexDigit_ne_nl (n : Nat) : hexDigit n ≠ '\n' := by
  unfold hexDigit
  have h : n % 16 < 16 := Nat.mod_lt _ (by norm_num)
  have key : ∀ k, k < 16 → "0123456789abcdef".data.getD k '0' ≠ '\n' := by decide
  exact key _ h

theorem jsonEscapeChar_no_nl (c : Char) : '\n' ∉ jsonEscapeChar c := by
  unfold jsonEscapeChar
  by_cases h1 : c = '"'
  · rw [if_pos h1]; decide
  rw [if_neg h1]
  by_cases h2 : c = '\\'
  · rw [if_pos h2]; decide
  rw [if_neg h2]
  by_cases h3 : c = '\n'
  · rw [if_pos h3]; decide
  rw [if_neg h3]
  by_cases h4 : c = '\r'
  · rw [if_pos h4]; decide
  rw [if_neg h4]
  by_cases h5 : c = '\t'
  · rw [if_pos h5]; decide
  rw [if_neg h5]
  by_cases h6 : c.toNat = 8
  · rw [if_pos h6]; decide
  rw [if_neg h6]
  by_cases h7 : c.toNat = 12
  · rw [if_pos h7]; decide
  rw [if_neg h7]
  by_cases h8 : c.toNat < 32
  · rw [if_pos h8]
    intro hm
    simp only [List.mem_cons, List.not_mem_nil, or_false] at hm
    rcases hm with hm | hm | hm | hm | hm | hm
    · exact absurd hm (by decide)
    · exact absurd hm (by decide)
    · exact absurd hm (by decide)
    · exact absurd hm (by decide)
    · exact hexDigit_ne_nl _ hm.symm
    · exact hexDigit_ne_nl _ hm.symm
  rw [if_neg h8]
  by_cases h9 : c.toNat < 127
  · rw [if_pos h9]
    intro hm
    simp only [List.mem_cons, List.not_mem_nil, or_false] at hm
    exact h3 hm.symm
  rw [if_neg h9]
  by_cases h10 : c.toNat < 65536
  · rw [if_pos h10]
    intro hm
    simp only [List.mem_cons, List.not_mem_nil, or_false] at hm
    rcases hm with hm | hm | hm | hm | hm | hm
    · exact absurd hm (by decide)
    · exact absurd hm (by decide)
    · exact hexDigit_ne_nl _ hm.symm
    · exact hexDigit_ne_nl _ hm.symm
    · exact hexDigit_ne_nl _ hm.symm
    · exact hexDigit_ne_nl _ hm.symm
  rw [if_neg h10]
  intro hm
  simp only [List.mem_cons, List.not_mem_nil, or_false] at hm
  rcases hm with hm | hm | hm | hm | hm | hm | hm | hm | hm | hm | hm | hm
  · exact absurd hm (by decide)
  · exact absurd hm (by decide)
  · exact hexDigit_ne_nl _ hm.symm
  · exact hexDigit_ne_nl _ hm.symm
  · exact hexDigit_ne_nl _ hm.symm
  · exact hexDigit_ne_nl _ hm.symm
  · exact absurd hm (by decide)
  · exact absurd hm (by decide)
  · exact hexDigit_ne_nl _ hm.symm
  · exact hexDigit_ne_nl _ hm.symm
  · exact hexDigit_ne_nl _ hm.symm
  · exact hexDigit_ne_nl _ hm.symm

theorem jsonEscape_no_nl (s : String) : '\n' ∉ (jsonEscape s).data := by
  intro hm
  have hm2 : '\n' ∈ (s.data.map jsonEscapeChar).flatten := hm
  rw [List.mem_flatten] at hm2
  obtain ⟨chunk, hchunk, hmem⟩ := hm2
  rw [List.mem_map] at hchunk
  obtain ⟨c, _, rfl⟩ := hchunk
  exact jsonEscapeChar_no_nl c hmem

theorem json_dumps_record_no_nl (p : String) : '\n' ∉ (json_dumps_record p).data := by
  intro hm
  have hm2 : '\n' ∈ ("\x7b\"prompt\": \"".data ++ (jsonEscape p).data ++ "\"\x7d".data) := hm
  rcases List.mem_append.mp hm2 with hm3 | hm3
  · rcases List.mem_append.mp hm3 with hm4 | hm4
    · exact absurd hm4 (by decide)
    · exact jsonEscape_no_nl p hm4
  · exact absurd hm3 (by decide)

theorem record_prompt_ne_empty (i : Nat) (d : Draw) : record_prompt i d ≠ "" := by
  show pyStrip (prompt_text i d) ≠ ""
  by_cases h1 : d.rand_val < 0.40
  · rw [prompt_text_eq_short h1]
    obtain ⟨c, hc, hw⟩ :=
      short_prompts_nonws _ (pyChoice_mem short_prompts d.choice_idx (by decide))
    exact pyStrip_ne_empty hc hw
  by_cases h2 : d.rand_val < 0.75
  · rw [prompt_text_eq_medium h1 h2]
    obtain ⟨c, hc, hw⟩ :=
      medium_prompts_nonws _ (pyChoice_mem medium_prompts d.choice_idx (by decide))
    exact pyStrip_ne_empty hc hw
  by_cases h3 : d.rand_val < 0.90
  · rw [prompt_text_eq_long h2 h3]
    refine pyStrip_ne_empty (c := 'P') ?_ (by decide)
    rw [long_replace_decomp]
    exact List.mem_append.mpr (Or.inl (List.mem_append.mpr (Or.inl (by decide))))
  · rw [prompt_text_eq_huge h3]
    refine pyStrip_ne_empty (c := 'M') ?_ (by decide)
    rw [data_append_str]
    exact List.mem_append.mpr (Or.inl (by decide))

/-- C7: every run yields exactly 100 records; each record is one JSON object
on its own line and its prompt field is a non-empty trimmed string. -/
theorem C7_corpus_shape (draws : Nat → Draw) :
    (output_prompts draws).length = 100 ∧
    ∀ i, i < num_prompts →
      record_prompt i (draws i) ≠ "" ∧
      pyStrip (record_prompt i (draws i)) = record_prompt i (draws i) ∧
      '\n' ∉ (json_dumps_record (record_prompt i (draws i))).data := by
  constructor
  · simp [output_prompts, num_prompts]
  · intro i _
    refine ⟨record_prompt_ne_empty i (draws i), ?_, json_dumps_record_no_nl _⟩
    show pyStrip (pyStrip (prompt_text i (draws i))) = pyStrip (prompt_text i (draws i))
    exact pyStrip_idem _


/-- C7 witness. -/

theorem C7_corpus_shape_witness :
    (output_prompts sampleDraws).length = 100 ∧ record_prompt 0 (sampleDraws 0) ≠ "" :=
  ⟨(C7_corpus_shape sampleDraws).1, ((C7_corpus_shape sampleDraws).2 0 (by decide)).1⟩

theorem fmt03_inj_data {i j : Nat} (hi : i < 1000) (hj : j < 1000)
    (h : (fmt03 i).data = (fmt03 j).data) : i = j :=
  fmt03_inj hi hj (congrArg String.mk h)

/-- C8: a long record's prompt is the rewritten template and records at
distinct generated indices have distinct content. -/
theorem C8_long_unique (i j : Nat) (d e : Draw)
    (hi : i < num_prompts) (hj : j < num_prompts)
    (hd2 : ¬ d.rand_val < 0.75) (hd3 : d.rand_val < 0.90)
    (he2 : ¬ e.rand_val < 0.75) (he3 : e.rand_val < 0.90) :
    record_prompt i d =
      pyStrip (pyReplace long_yaml_example "deploy-using-helm"
        ("deploy-using-helm-" ++ fmt03 i)) ∧
    (i ≠ j → record_prompt i d ≠ record_prompt j e) := by
  have hrec : ∀ (k : Nat) (f : Draw), ¬ f.rand_val < 0.75 → f.rand_val < 0.90 →
      (record_prompt k f).data =
        long_before_s.data ++ ("deploy-using-helm-".data ++ (fmt03 k).data) ++
          long_after_s.data := by
    intro k f hf2 hf3
    show (pyStrip (prompt_text k f)).data = _
    rw [prompt_text_eq_long hf2 hf3]
    show stripList (pyReplace long_yaml_example "deploy-using-helm"
      ("deploy-using-helm-" ++ fmt03 k)).data = _
    rw [long_replace_decomp, data_append_str, strip_long_decomp]
  constructor
  · show pyStrip (prompt_text i d) = _
    rw [prompt_text_eq_long hd2 hd3]
  · intro hij heq
    have hi3 : i < 1000 := lt_trans hi (by norm_num [num_prompts])
    have hj3 : j < 1000 := lt_trans hj (by norm_num [num_prompts])
    have hdata := congrArg String.data heq
    rw [hrec i d hd2 hd3, hrec j e he2 he3] at hdata
    have hlen : (long_before_s.data ++
        ("deploy-using-helm-".data ++ (fmt03 i).data)).length =
        (long_before_s.data ++ ("deploy-using-helm-".data ++ (fmt03 j).data)).length := by
      simp only [List.length_append, fmt03_len i hi3, fmt03_len j hj3]
    have hmid := List.append_inj_left hdata hlen
    have hfij := List.append_cancel_left hmid
    have hf := List.append_cancel_left hfij
    exact hij (fmt03_inj_data hi3 hj3 hf)

/-- C8 witness: indices 0 and 1 give distinct long records. -/

theorem C8_long_unique_witness :
    record_prompt 0 ⟨0.8, 0, 5⟩ ≠ record_prompt 1 ⟨0.8, 0, 5⟩ :=
  (C8_long_unique 0 1 ⟨0.8, 0, 5⟩ ⟨0.8, 0, 5⟩ (by decide) (by decide)
    (by norm_num) (by norm_num) (by norm_num) (by norm_num)).2 (by decide)

theorem record_prompt_huge_len (i : Nat) (d : Draw) (h : ¬ d.rand_val < 0.90)
    (hn : 1 ≤ d.spam_lines) :
    (record_prompt i d).length = 750 + d.spam_lines * 39 := by
  show (pyStrip (prompt_text i d)).length = _
  rw [prompt_text_eq_huge h]
  show (stripList ((huge_stack_trace_example ++ strMul noise_line d.spam_lines).data)).length = _
  rw [data_append_str]
  rw [show (strMul noise_line d.spam_lines).data = listMul noise_line.data d.spam_lines from rfl]
  rw [strip_huge_decomp _ hn]
  rw [List.length_append, listMul_length, huge_s_len, noise_len]

/-- C9: huge record lengths are monotone in the drawn noise-line count and
strictly exceed the trimmed base template's length. -/
theorem C9_huge_length_monotone (i1 i2 : Nat) (d1 d2 : Draw)
    (h1 : ¬ d1.rand_val < 0.90) (h2 : ¬ d2.rand_val < 0.90)
    (hs1 : 5 ≤ d1.spam_lines) (hs1b : d1.spam_lines ≤ 50)
    (hs2 : 5 ≤ d2.spam_lines) (hs2b : d2.spam_lines ≤ 50) :
    (d1.spam_lines ≤ d2.spam_lines →
      (record_prompt i1 d1).length ≤ (record_prompt i2 d2).length) ∧
    (pyStrip huge_stack_trace_example).length < (record_prompt i1 d1).length := by
  have hl1 : (record_prompt i1 d1).length = 750 + d1.spam_lines * 39 :=
    record_prompt_huge_len i1 d1 h1 (by omega)
  have hl2 : (record_prompt i2 d2).length = 750 + d2.spam_lines * 39 :=
    record_prompt_huge_len i2 d2 h2 (by omega)
  constructor
  · intro hle
    rw [hl1, hl2]
    omega
  · rw [hl1, huge_stripped_len]
    omega

/-- C9 witness. -/

theorem C9_huge_length_monotone_witness :
    ((record_prompt 0 ⟨0.95, 0, 5⟩).length ≤ (record_prompt 0 ⟨0.95, 0, 10⟩).length) ∧
    (pyStrip huge_stack_trace_example).length < (record_prompt 0 ⟨0.95, 0, 5⟩).length :=
  ⟨(C9_huge_length_monotone 0 0 ⟨0.95, 0, 5⟩ ⟨0.95, 0, 10⟩ (by norm_num) (by norm_num)
      (by decide) (by decide) (by decide) (by decide)).1 (by decide),
   (C9_huge_length_monotone 0 0 ⟨0.95, 0, 5⟩ ⟨0.95, 0, 10⟩ (by norm_num) (by norm_num)
      (by decide) (by decide) (by decide) (by decide)).2⟩
